import Mathlib

/-! View-state transitions of the owlcms scoreboard components.

Shallow embedding of the seven lifecycle methods of the two Polymer components
`CurrentAthlete` (src/owlcms/frontend/components/CurrentAthlete.js) and
`ScoreMultiRanks` (src/owlcms/frontend/components/ScoreMultiRanks.js).

Each method is a sequence of assignments to inline style properties of the
elements reached through `this.$`; it is embedded as a function on a record
holding those inline styles, one assignment per `let`, in source order.
The calls on collaborators (`console.debug`, the `timer` element, the document
body) are recorded in the state as well, so that nothing the methods do is
dropped.  `super.ready()` belongs to the Polymer base class and does not assign
any of the modelled properties.
-/

/-- Inline style of one element: the two CSS properties the components assign.
The empty string is the value of a property that was never assigned. -/
structure Style where
  display : String
  visibility : String
deriving DecidableEq, Repr

/-- Calls received by the athlete `timer-element` collaborator. -/
inductive TimerCall where
  | start
  | reset
deriving DecidableEq, Repr

/-- Display regions named by the specification. `Group` exists only in
`ScoreMultiRanks` (element `groupDiv`). -/
inductive Region where
  | FullName
  | StartNumber
  | TeamName
  | Attempt
  | Weight
  | AthleteTimer
  | BreakTimer
  | Decision
  | Group
deriving DecidableEq, Repr

/-- The seven transition methods both components expose. -/
inductive Method where
  | ready
  | start
  | reset
  | down
  | doBreak
  | groupDone
  | refereeDecision
deriving DecidableEq, Repr

/-- The style properties through which the components show and hide a region:
`fullNameDiv` is assigned both `visibility` and `display`, `groupDiv` only
`visibility`, every other element only `display`. -/
def Region.controlled (r : Region) (st : Style) : List String :=
  match r with
  | .FullName => [st.visibility, st.display]
  | .Group => [st.visibility]
  | _ => [st.display]

/-- Renaming of the display value that separates the two layouts:
`CurrentAthlete` shows a region with `grid`, `ScoreMultiRanks` with `flex`. -/
def gridToFlex (d : String) : String :=
  if d = "grid" then "flex" else d

/-- The renaming of `grid` to `flex` applied to the display property of a style. -/
def Style.toFlex (st : Style) : Style :=
  { st with display := gridToFlex st.display }

namespace CurrentAthlete

/-- Inline styles of the elements `this.$.…Div` of `CurrentAthlete`, with the
calls made on the collaborators. -/
structure State where
  fullNameDiv : Style
  startNumberDiv : Style
  teamNameDiv : Style
  attemptDiv : Style
  weightDiv : Style
  timerDiv : Style
  breakTimerDiv : Style
  decisionDiv : Style
  timer : List TimerCall
  console : List String
  bodyTheme : Option String
deriving DecidableEq, Repr

/-- Styles of the freshly stamped template: none of the eight elements carries
an inline style attribute (template lines 27-44). -/
def template : State :=
  { fullNameDiv := ⟨"", ""⟩, startNumberDiv := ⟨"", ""⟩, teamNameDiv := ⟨"", ""⟩,
    attemptDiv := ⟨"", ""⟩, weightDiv := ⟨"", ""⟩, timerDiv := ⟨"", ""⟩,
    breakTimerDiv := ⟨"", ""⟩, decisionDiv := ⟨"", ""⟩,
    timer := [], console := [], bodyTheme := none }

/-- Method `ready()`, lines 85-98. -/
def ready (s : State) : State :=
  let s := { s with console := s.console ++ ["ready"] }
  let s := { s with bodyTheme := some "dark" }
  let s := { s with fullNameDiv := { s.fullNameDiv with visibility := "visible" } }
  let s := { s with fullNameDiv := { s.fullNameDiv with display := "grid" } }
  let s := { s with startNumberDiv := { s.startNumberDiv with display := "grid" } }
  let s := { s with teamNameDiv := { s.teamNameDiv with display := "grid" } }
  let s := { s with attemptDiv := { s.attemptDiv with display := "grid" } }
  let s := { s with weightDiv := { s.weightDiv with display := "grid" } }
  let s := { s with timerDiv := { s.timerDiv with display := "grid" } }
  let s := { s with breakTimerDiv := { s.breakTimerDiv with display := "none" } }
  let s := { s with decisionDiv := { s.decisionDiv with display := "none" } }
  s

/-- Method `start()`, lines 100-102. -/
def start (s : State) : State :=
  { s with timer := s.timer ++ [TimerCall.start] }

/-- Method `reset()`, lines 104-116. -/
def reset (s : State) : State :=
  let s := { s with console := s.console ++ ["reset"] }
  let s := { s with timer := s.timer ++ [TimerCall.reset] }
  let s := { s with fullNameDiv := { s.fullNameDiv with visibility := "visible" } }
  let s := { s with fullNameDiv := { s.fullNameDiv with display := "grid" } }
  let s := { s with startNumberDiv := { s.startNumberDiv with display := "grid" } }
  let s := { s with teamNameDiv := { s.teamNameDiv with display := "grid" } }
  let s := { s with attemptDiv := { s.attemptDiv with display := "grid" } }
  let s := { s with weightDiv := { s.weightDiv with display := "grid" } }
  let s := { s with timerDiv := { s.timerDiv with display := "grid" } }
  let s := { s with breakTimerDiv := { s.breakTimerDiv with display := "none" } }
  let s := { s with decisionDiv := { s.decisionDiv with display := "none" } }
  s

/-- Method `down()`, lines 118-127 (it logs the text `refereeDecision`). -/
def down (s : State) : State :=
  let s := { s with console := s.console ++ ["refereeDecision"] }
  let s := { s with startNumberDiv := { s.startNumberDiv with display := "grid" } }
  let s := { s with teamNameDiv := { s.teamNameDiv with display := "grid" } }
  let s := { s with attemptDiv := { s.attemptDiv with display := "grid" } }
  let s := { s with weightDiv := { s.weightDiv with display := "grid" } }
  let s := { s with timerDiv := { s.timerDiv with display := "grid" } }
  let s := { s with breakTimerDiv := { s.breakTimerDiv with display := "none" } }
  let s := { s with decisionDiv := { s.decisionDiv with display := "grid" } }
  s

/-- Method `doBreak()`, lines 129-140. -/
def doBreak (s : State) : State :=
  let s := { s with console := s.console ++ ["break"] }
  let s := { s with fullNameDiv := { s.fullNameDiv with visibility := "visible" } }
  let s := { s with fullNameDiv := { s.fullNameDiv with display := "grid" } }
  let s := { s with startNumberDiv := { s.startNumberDiv with display := "none" } }
  let s := { s with teamNameDiv := { s.teamNameDiv with display := "none" } }
  let s := { s with attemptDiv := { s.attemptDiv with display := "none" } }
  let s := { s with weightDiv := { s.weightDiv with display := "none" } }
  let s := { s with timerDiv := { s.timerDiv with display := "none" } }
  let s := { s with breakTimerDiv := { s.breakTimerDiv with display := "grid" } }
  let s := { s with decisionDiv := { s.decisionDiv with display := "none" } }
  s

/-- Method `groupDone()`, lines 142-153. -/
def groupDone (s : State) : State :=
  let s := { s with console := s.console ++ ["done"] }
  let s := { s with fullNameDiv := { s.fullNameDiv with visibility := "visible" } }
  let s := { s with fullNameDiv := { s.fullNameDiv with display := "grid" } }
  let s := { s with startNumberDiv := { s.startNumberDiv with display := "none" } }
  let s := { s with teamNameDiv := { s.teamNameDiv with display := "none" } }
  let s := { s with attemptDiv := { s.attemptDiv with display := "none" } }
  let s := { s with weightDiv := { s.weightDiv with display := "none" } }
  let s := { s with timerDiv := { s.timerDiv with display := "none" } }
  let s := { s with breakTimerDiv := { s.breakTimerDiv with display := "none" } }
  let s := { s with decisionDiv := { s.decisionDiv with display := "none" } }
  s

/-- Method `refereeDecision()`, lines 155-161. -/
def refereeDecision (s : State) : State :=
  let s := { s with console := s.console ++ ["refereeDecision"] }
  let s := { s with decisionDiv := { s.decisionDiv with display := "grid" } }
  let s := { s with weightDiv := { s.weightDiv with display := "grid" } }
  let s := { s with timerDiv := { s.timerDiv with display := "grid" } }
  let s := { s with breakTimerDiv := { s.breakTimerDiv with display := "none" } }
  s

/-- Dispatch of a transition method by name. -/
def call (m : Method) (s : State) : State :=
  match m with
  | .ready => ready s
  | .start => start s
  | .reset => reset s
  | .down => down s
  | .doBreak => doBreak s
  | .groupDone => groupDone s
  | .refereeDecision => refereeDecision s

/-- A finite sequence of transition calls, applied left to right. -/
def run (ms : List Method) (s : State) : State :=
  ms.foldl (fun acc m => call m acc) s

/-- The element behind a region; `CurrentAthlete` has no group label. -/
def style (s : State) (r : Region) : Option Style :=
  match r with
  | .FullName => some s.fullNameDiv
  | .StartNumber => some s.startNumberDiv
  | .TeamName => some s.teamNameDiv
  | .Attempt => some s.attemptDiv
  | .Weight => some s.weightDiv
  | .AthleteTimer => some s.timerDiv
  | .BreakTimer => some s.breakTimerDiv
  | .Decision => some s.decisionDiv
  | .Group => none

/-- The visibility value of a region: its controlled style properties. -/
def regionValue (s : State) (r : Region) : Option (List String) :=
  (style s r).map r.controlled

/-- States reached from `ready` by a finite sequence of transition calls. -/
def Reachable (s : State) : Prop :=
  ∃ (s0 : State) (ms : List Method), s = run ms (ready s0)

end CurrentAthlete

namespace ScoreMultiRanks

/-- Inline styles of the elements `this.$.…Div` of `ScoreMultiRanks`, with the
calls made on the collaborators. -/
structure State where
  groupDiv : Style
  fullNameDiv : Style
  startNumberDiv : Style
  teamNameDiv : Style
  attemptDiv : Style
  weightDiv : Style
  timerDiv : Style
  breakTimerDiv : Style
  decisionDiv : Style
  timer : List TimerCall
  console : List String
deriving DecidableEq, Repr

/-- Styles of the freshly stamped template: none of the nine elements carries
an inline style attribute (template lines 23-51). -/
def template : State :=
  { groupDiv := ⟨"", ""⟩, fullNameDiv := ⟨"", ""⟩, startNumberDiv := ⟨"", ""⟩,
    teamNameDiv := ⟨"", ""⟩, attemptDiv := ⟨"", ""⟩, weightDiv := ⟨"", ""⟩,
    timerDiv := ⟨"", ""⟩, breakTimerDiv := ⟨"", ""⟩, decisionDiv := ⟨"", ""⟩,
    timer := [], console := [] }

/-- Method `ready()`, lines 250-263. -/
def ready (s : State) : State :=
  let s := { s with console := s.console ++ ["ready"] }
  let s := { s with groupDiv := { s.groupDiv with visibility := "visible" } }
  let s := { s with fullNameDiv := { s.fullNameDiv with visibility := "visible" } }
  let s := { s with fullNameDiv := { s.fullNameDiv with display := "flex" } }
  let s := { s with startNumberDiv := { s.startNumberDiv with display := "flex" } }
  let s := { s with teamNameDiv := { s.teamNameDiv with display := "flex" } }
  let s := { s with attemptDiv := { s.attemptDiv with display := "flex" } }
  let s := { s with weightDiv := { s.weightDiv with display := "flex" } }
  let s := { s with timerDiv := { s.timerDiv with display := "flex" } }
  let s := { s with breakTimerDiv := { s.breakTimerDiv with display := "none" } }
  let s := { s with decisionDiv := { s.decisionDiv with display := "none" } }
  s

/-- Method `start()`, lines 265-267. -/
def start (s : State) : State :=
  { s with timer := s.timer ++ [TimerCall.start] }

/-- Method `reset()`, lines 269-282. -/
def reset (s : State) : State :=
  let s := { s with console := s.console ++ ["reset"] }
  let s := { s with timer := s.timer ++ [TimerCall.reset] }
  let s := { s with groupDiv := { s.groupDiv with visibility := "visible" } }
  let s := { s with fullNameDiv := { s.fullNameDiv with visibility := "visible" } }
  let s := { s with fullNameDiv := { s.fullNameDiv with display := "flex" } }
  let s := { s with startNumberDiv := { s.startNumberDiv with display := "flex" } }
  let s := { s with teamNameDiv := { s.teamNameDiv with display := "flex" } }
  let s := { s with attemptDiv := { s.attemptDiv with display := "flex" } }
  let s := { s with weightDiv := { s.weightDiv with display := "flex" } }
  let s := { s with timerDiv := { s.timerDiv with display := "flex" } }
  let s := { s with breakTimerDiv := { s.breakTimerDiv with display := "none" } }
  let s := { s with decisionDiv := { s.decisionDiv with display := "none" } }
  s

/-- Method `down()`, lines 284-294 (it logs the text `refereeDecision`). -/
def down (s : State) : State :=
  let s := { s with console := s.console ++ ["refereeDecision"] }
  let s := { s with groupDiv := { s.groupDiv with visibility := "visible" } }
  let s := { s with startNumberDiv := { s.startNumberDiv with display := "flex" } }
  let s := { s with teamNameDiv := { s.teamNameDiv with display := "flex" } }
  let s := { s with attemptDiv := { s.attemptDiv with display := "flex" } }
  let s := { s with weightDiv := { s.weightDiv with display := "flex" } }
  let s := { s with timerDiv := { s.timerDiv with display := "flex" } }
  let s := { s with breakTimerDiv := { s.breakTimerDiv with display := "none" } }
  let s := { s with decisionDiv := { s.decisionDiv with display := "flex" } }
  s

/-- Method `doBreak()`, lines 296-308. -/
def doBreak (s : State) : State :=
  let s := { s with console := s.console ++ ["break"] }
  let s := { s with groupDiv := { s.groupDiv with visibility := "hidden" } }
  let s := { s with fullNameDiv := { s.fullNameDiv with visibility := "visible" } }
  let s := { s with fullNameDiv := { s.fullNameDiv with display := "flex" } }
  let s := { s with startNumberDiv := { s.startNumberDiv with display := "none" } }
  let s := { s with teamNameDiv := { s.teamNameDiv with display := "none" } }
  let s := { s with attemptDiv := { s.attemptDiv with display := "none" } }
  let s := { s with weightDiv := { s.weightDiv with display := "none" } }
  let s := { s with timerDiv := { s.timerDiv with display := "none" } }
  let s := { s with breakTimerDiv := { s.breakTimerDiv with display := "flex" } }
  let s := { s with decisionDiv := { s.decisionDiv with display := "none" } }
  s

/-- Method `groupDone()`, lines 310-322. -/
def groupDone (s : State) : State :=
  let s := { s with console := s.console ++ ["done"] }
  let s := { s with groupDiv := { s.groupDiv with visibility := "hidden" } }
  let s := { s with fullNameDiv := { s.fullNameDiv with visibility := "visible" } }
  let s := { s with fullNameDiv := { s.fullNameDiv with display := "flex" } }
  let s := { s with startNumberDiv := { s.startNumberDiv with display := "none" } }
  let s := { s with teamNameDiv := { s.teamNameDiv with display := "none" } }
  let s := { s with attemptDiv := { s.attemptDiv with display := "none" } }
  let s := { s with weightDiv := { s.weightDiv with display := "none" } }
  let s := { s with timerDiv := { s.timerDiv with display := "none" } }
  let s := { s with breakTimerDiv := { s.breakTimerDiv with display := "none" } }
  let s := { s with decisionDiv := { s.decisionDiv with display := "none" } }
  s

/-- Method `refereeDecision()`, lines 324-331. -/
def refereeDecision (s : State) : State :=
  let s := { s with console := s.console ++ ["refereeDecision"] }
  let s := { s with groupDiv := { s.groupDiv with visibility := "visible" } }
  let s := { s with decisionDiv := { s.decisionDiv with display := "flex" } }
  let s := { s with weightDiv := { s.weightDiv with display := "flex" } }
  let s := { s with timerDiv := { s.timerDiv with display := "flex" } }
  let s := { s with breakTimerDiv := { s.breakTimerDiv with display := "none" } }
  s

/-- Dispatch of a transition method by name. -/
def call (m : Method) (s : State) : State :=
  match m with
  | .ready => ready s
  | .start => start s
  | .reset => reset s
  | .down => down s
  | .doBreak => doBreak s
  | .groupDone => groupDone s
  | .refereeDecision => refereeDecision s

/-- A finite sequence of transition calls, applied left to right. -/
def run (ms : List Method) (s : State) : State :=
  ms.foldl (fun acc m => call m acc) s

/-- The element behind a region. -/
def style (s : State) (r : Region) : Option Style :=
  match r with
  | .FullName => some s.fullNameDiv
  | .StartNumber => some s.startNumberDiv
  | .TeamName => some s.teamNameDiv
  | .Attempt => some s.attemptDiv
  | .Weight => some s.weightDiv
  | .AthleteTimer => some s.timerDiv
  | .BreakTimer => some s.breakTimerDiv
  | .Decision => some s.decisionDiv
  | .Group => some s.groupDiv

/-- The visibility value of a region: its controlled style properties. -/
def regionValue (s : State) (r : Region) : Option (List String) :=
  (style s r).map r.controlled

/-- States reached from `ready` by a finite sequence of transition calls. -/
def Reachable (s : State) : Prop :=
  ∃ (s0 : State) (ms : List Method), s = run ms (ready s0)

end ScoreMultiRanks

/-- A `CurrentAthlete` state and a `ScoreMultiRanks` state show the same thing
on the eight shared regions: renaming `grid` to `flex` in the former gives the
latter. -/
def Corresponds (a : CurrentAthlete.State) (b : ScoreMultiRanks.State) : Prop :=
  ∀ r : Region, r ≠ Region.Group →
    (CurrentAthlete.style a r).map Style.toFlex = ScoreMultiRanks.style b r


/-! ## Template bindings -/

/-- JavaScript values as far as truthiness tells them apart. A number is given
by its integer value, with `nan` apart; a fractional number is truthy like any
non-zero integer. -/
inductive JSValue where
  | undefined
  | null
  | bool (b : Bool)
  | number (n : Int)
  | nan
  | string (s : String)
  | object
deriving DecidableEq, Repr

/-- JavaScript `ToBoolean`: `undefined`, `null`, `false`, zero, `NaN` and the
empty string are falsy, everything else is truthy. -/
def JSValue.truthy (v : JSValue) : Bool :=
  match v with
  | .undefined => false
  | .null => false
  | .bool b => b
  | .number n => n != 0
  | .nan => false
  | .string s => s != ""
  | .object => true

/-- JavaScript `!v`, as in the binding `[[!l.isSpacer]]`. -/
def JSValue.lnot (v : JSValue) : JSValue :=
  .bool (!v.truthy)

/-- Rendered markup: text nodes and elements with attributes (an attribute
binding such as `class$=` or `inner-h-t-m-l=` is kept as an attribute). -/
inductive Html where
  | text (s : String)
  | element (tag : String) (attrs : List (String × String)) (children : List Html)

/-- Polymer `dom-if`: the content is stamped when `if` is truthy. -/
def domIf (cond : JSValue) (content : List Html) : List Html :=
  if cond.truthy then content else []

/-- Polymer `dom-repeat`: the content is stamped once per item, in order. -/
def domRepeat {α : Type} (items : List α) (content : α → List Html) : List Html :=
  match items with
  | [] => []
  | x :: xs => content x ++ domRepeat xs content

/-- One entry of `l.sattempts` / `l.cattempts`, with the fields the templates read. -/
structure Attempt where
  goodBadClassName : String
  className : String
  stringValue : String
deriving DecidableEq, Repr

namespace CurrentAthlete

/-- Translation strings `t.…` read by the result rows. -/
structure Translations where
  Snatch : String
  Clean_and_Jerk : String
  Total : String
  Rank : String
deriving DecidableEq, Repr

/-- One item `l` of `athletes`, with the fields the template reads. -/
structure Row where
  isSpacer : JSValue
  category : String
  sattempts : List Attempt
  snatchRank : String
  cattempts : List Attempt
  cleanJerkRank : String
  total : String
  totalRank : String
deriving DecidableEq, Repr

/-- The `tr` of template lines 49-76. -/
def dataRow (t : Translations) (l : Row) : Html :=
  .element "tr" []
    ([ .element "td" [("class", "category")] [.element "div" [] [.text l.category]],
       .element "td" [("class", "liftName")]
        [.element "div" [("inner-h-t-m-l", t.Snatch)] []] ]
     ++ domRepeat l.sattempts (fun attempt =>
          [.element "td" [("class", attempt.goodBadClassName)]
            [.element "div" [] [.text attempt.stringValue]]])
     ++ [ .element "td" [("class", "showRank")]
            [.element "div" [] [.text (t.Rank ++ " "), .element "b" [] [.text l.snatchRank]]],
          .element "td" [("class", "liftName")]
            [.element "div" [("inner-h-t-m-l", t.Clean_and_Jerk)] []] ]
     ++ domRepeat l.cattempts (fun attempt =>
          [.element "td" [("class", attempt.goodBadClassName ++ " " ++ attempt.className)]
            [.element "div" [] [.text attempt.stringValue]]])
     ++ [ .element "td" [("class", "showRank")]
            [.element "div" []
              [.element "div" []
                [.text (t.Rank ++ " "), .element "b" [] [.text l.cleanJerkRank]]]],
          .element "td" [("class", "liftName")]
            [.element "div" [("inner-h-t-m-l", t.Total)] []],
          .element "td" [("class", "total")] [.text l.total],
          .element "td" [("class", "totalRank")]
            [.element "div" [] [.text (t.Rank ++ " "), .element "b" [] [.text l.totalRank]]] ])

/-- What the body of the `result-table` repeat stamps for one item: the single
`dom-if` on `[[!l.isSpacer]]` (template lines 48-77). -/
def rowTemplates (t : Translations) (l : Row) : List Html :=
  domIf l.isSpacer.lnot [dataRow t l]

/-- The rows of `table.results` (template lines 47-78). -/
def resultTable (t : Translations) (athletes : List Row) : List Html :=
  domRepeat athletes (rowTemplates t)

end CurrentAthlete

namespace ScoreMultiRanks

/-- One item `l` of `athletes` or `leaders`, with the fields the template reads. -/
structure Row where
  isSpacer : JSValue
  classname : String
  startNumber : String
  fullName : String
  category : String
  yearOfBirth : String
  teamName : String
  sattempts : List Attempt
  snatchRankYth : String
  snatchRankJr : String
  snatchRankSr : String
  cattempts : List Attempt
  cleanJerkRankYth : String
  cleanJerkRankJr : String
  cleanJerkRankSr : String
  total : String
  totalRankYth : String
  totalRankJr : String
  totalRankSr : String
deriving DecidableEq, Repr

/-- The `tr` of template lines 93-95, repeated verbatim at lines 182-184. -/
def spacerRow : Html :=
  .element "tr" []
    [.element "td"
      [("colspan", "100%"), ("style", "height:0.1ex; border:none"), ("class", "spacer")] []]

/-- The `tr` of template lines 98-152, repeated verbatim at lines 187-241. -/
def dataRow (l : Row) : Html :=
  .element "tr" []
    ([ .element "td" [("class", "groupCol " ++ l.classname)]
        [.element "div" [("class", l.classname)] [.text l.startNumber]],
       .element "td" [("class", "name " ++ l.classname)]
        [.element "div" [] [.text l.fullName]],
       .element "td" [("class", "category")] [.element "div" [] [.text l.category]],
       .element "td" [("class", "narrow")] [.element "div" [] [.text l.yearOfBirth]],
       .element "td" [("class", "club")] [.element "div" [] [.text l.teamName]] ]
     ++ domRepeat l.sattempts (fun attempt =>
          [.element "td" [("class", attempt.goodBadClassName ++ " " ++ attempt.className)]
            [.element "div" [] [.text attempt.stringValue]]])
     ++ [ .element "td" [("class", "showRank")] [.element "div" [] [.text l.snatchRankYth]],
          .element "td" [("class", "showRank")] [.element "div" [] [.text l.snatchRankJr]],
          .element "td" [("class", "showRank")] [.element "div" [] [.text l.snatchRankSr]] ]
     ++ domRepeat l.cattempts (fun attempt =>
          [.element "td" [("class", attempt.goodBadClassName ++ " " ++ attempt.className)]
            [.element "div" [] [.text attempt.stringValue]]])
     ++ [ .element "td" [("class", "showRank")] [.element "div" [] [.text l.cleanJerkRankYth]],
          .element "td" [("class", "showRank")] [.element "div" [] [.text l.cleanJerkRankJr]],
          .element "td" [("class", "showRank")] [.element "div" [] [.text l.cleanJerkRankSr]],
          .element "td" [("class", "narrow")] [.text l.total],
          .element "td" [("class", "thRank")] [.element "div" [] [.text l.totalRankYth]],
          .element "td" [("class", "thRank")] [.element "div" [] [.text l.totalRankJr]],
          .element "td" [("class", "thRank")] [.element "div" [] [.text l.totalRankSr]] ])

/-- What the body of a `result-table` repeat stamps for one item: the `dom-if`
on `[[l.isSpacer]]` followed by the `dom-if` on `[[!l.isSpacer]]` (template
lines 92-153, and again 181-242). -/
def rowTemplates (l : Row) : List Html :=
  domIf l.isSpacer [spacerRow] ++ domIf l.isSpacer.lnot [dataRow l]

/-- The repeated rows of the results table (template lines 91-154). -/
def resultTable (athletes : List Row) : List Html :=
  domRepeat athletes rowTemplates

/-- The repeated rows of the leaders table (template lines 180-243). -/
def leadersTable (leaders : List Row) : List Html :=
  domRepeat leaders rowTemplates

/-- Method `_computeHidden(hidden)`, lines 337-339. -/
def _computeHidden (hidden : JSValue) : String :=
  if hidden.truthy then "display:none" else "display:block"

/-- Method `_computeInactive(hidden)`, lines 340-342. -/
def _computeInactive (hidden : JSValue) : String :=
  if hidden.truthy then "display:block" else "display:none"

/-- Method `_computeInactiveClass(hidden)`, lines 343-345. -/
def _computeInactiveClass (hidden : JSValue) : String :=
  if hidden.truthy then "bigTitle" else ""

/-- Method `_computeTeamWidth(w)`, lines 346-348. -/
def _computeTeamWidth (w : JSValue) : String :=
  if w.truthy then "wideTeams" else "narrowTeams"

/-- Class of the wrapper `div`, template line 17. -/
def wrapperClass (wideTeamNames hidden : JSValue) : String :=
  "wrapper " ++ _computeTeamWidth wideTeamNames ++ " " ++ _computeInactiveClass hidden

/-- Style of the waiting banner `div`, template line 18. -/
def bannerStyle (hidden : JSValue) : String :=
  _computeInactive hidden

/-- Style of `div.attemptBar`, template line 22. -/
def attemptBarStyle (hidden : JSValue) : String :=
  _computeHidden hidden

/-- Style of `div.group`, template line 48. -/
def groupStyle (hidden : JSValue) : String :=
  _computeHidden hidden

/-- Style of `div#results` and of its table, template lines 54-55. -/
def resultsStyle (hidden : JSValue) : String :=
  _computeHidden hidden

/-- Style of `div#leaders` and of its table, template lines 159-160. -/
def leadersStyle (hidden : JSValue) : String :=
  _computeHidden hidden

end ScoreMultiRanks

/-! ## Shared lemmas -/

/-- No method of `CurrentAthlete` takes `fullNameDiv` away from `grid`/`visible`. -/
theorem CurrentAthlete.grid_fullName_call (m : Method) (s : CurrentAthlete.State)
    (h : s.fullNameDiv = ⟨"grid", "visible"⟩) :
    (CurrentAthlete.call m s).fullNameDiv = ⟨"grid", "visible"⟩ := by
  cases m <;> first | rfl | exact h

/-- No method of `ScoreMultiRanks` takes `fullNameDiv` away from `flex`/`visible`. -/
theorem ScoreMultiRanks.flex_fullName_call (m : Method) (s : ScoreMultiRanks.State)
    (h : s.fullNameDiv = ⟨"flex", "visible"⟩) :
    (ScoreMultiRanks.call m s).fullNameDiv = ⟨"flex", "visible"⟩ := by
  cases m <;> first | rfl | exact h

/-- After `ready`, any sequence of calls leaves `fullNameDiv` at `grid`/`visible`. -/
theorem CurrentAthlete.grid_fullName_run (ms : List Method) (s : CurrentAthlete.State)
    (h : s.fullNameDiv = ⟨"grid", "visible"⟩) :
    (CurrentAthlete.run ms s).fullNameDiv = ⟨"grid", "visible"⟩ := by
  induction ms generalizing s with
  | nil => exact h
  | cons m rest ih =>
    exact ih (CurrentAthlete.call m s) (CurrentAthlete.grid_fullName_call m s h)

/-- After `ready`, any sequence of calls leaves `fullNameDiv` at `flex`/`visible`. -/
theorem ScoreMultiRanks.flex_fullName_run (ms : List Method) (s : ScoreMultiRanks.State)
    (h : s.fullNameDiv = ⟨"flex", "visible"⟩) :
    (ScoreMultiRanks.run ms s).fullNameDiv = ⟨"flex", "visible"⟩ := by
  induction ms generalizing s with
  | nil => exact h
  | cons m rest ih =>
    exact ih (ScoreMultiRanks.call m s) (ScoreMultiRanks.flex_fullName_call m s h)

/-- In every reachable state of `CurrentAthlete`, `fullNameDiv` is `grid`/`visible`. -/
theorem CurrentAthlete.grid_fullName_reachable (s : CurrentAthlete.State)
    (h : CurrentAthlete.Reachable s) : s.fullNameDiv = ⟨"grid", "visible"⟩ := by
  obtain ⟨s0, ms, rfl⟩ := h
  exact CurrentAthlete.grid_fullName_run ms _ rfl

/-- In every reachable state of `ScoreMultiRanks`, `fullNameDiv` is `flex`/`visible`. -/
theorem ScoreMultiRanks.flex_fullName_reachable (s : ScoreMultiRanks.State)
    (h : ScoreMultiRanks.Reachable s) : s.fullNameDiv = ⟨"flex", "visible"⟩ := by
  obtain ⟨s0, ms, rfl⟩ := h
  exact ScoreMultiRanks.flex_fullName_run ms _ rfl

/-! ## C1 -/

/-- C1, as stated, fails: `start` and `refereeDecision` leave StartNumber as it
was, so the state after `ready` and the state after `ready; doBreak` give
different StartNumber values after the same call, in both components. -/
theorem C1_stale_region_survives :
    CurrentAthlete.regionValue
        (CurrentAthlete.call Method.start (CurrentAthlete.ready CurrentAthlete.template))
        Region.StartNumber = some ["grid"]
    ∧ CurrentAthlete.regionValue
        (CurrentAthlete.call Method.start
          (CurrentAthlete.doBreak (CurrentAthlete.ready CurrentAthlete.template)))
        Region.StartNumber = some ["none"]
    ∧ CurrentAthlete.regionValue
        (CurrentAthlete.call Method.refereeDecision
          (CurrentAthlete.ready CurrentAthlete.template))
        Region.StartNumber
      ≠ CurrentAthlete.regionValue
        (CurrentAthlete.call Method.refereeDecision
          (CurrentAthlete.doBreak (CurrentAthlete.ready CurrentAthlete.template)))
        Region.StartNumber
    ∧ ScoreMultiRanks.regionValue
        (ScoreMultiRanks.call Method.start (ScoreMultiRanks.ready ScoreMultiRanks.template))
        Region.StartNumber
      ≠ ScoreMultiRanks.regionValue
        (ScoreMultiRanks.call Method.start
          (ScoreMultiRanks.doBreak (ScoreMultiRanks.ready ScoreMultiRanks.template)))
        Region.StartNumber
    ∧ ScoreMultiRanks.regionValue
        (ScoreMultiRanks.call Method.refereeDecision
          (ScoreMultiRanks.ready ScoreMultiRanks.template))
        Region.StartNumber
      ≠ ScoreMultiRanks.regionValue
        (ScoreMultiRanks.call Method.refereeDecision
          (ScoreMultiRanks.doBreak (ScoreMultiRanks.ready ScoreMultiRanks.template)))
        Region.StartNumber := by
  refine ⟨rfl, rfl, ?_, ?_, ?_⟩ <;> decide

/-- C1, amended: for every method but `start`, and for `refereeDecision` only
on the regions Decision, Weight, AthleteTimer, BreakTimer and Group, the
visibility value of a region after the call is the same from any two prior
states; for `down` on FullName, which `down` does not assign, the two prior
states are taken among those reached from `ready`. -/
theorem C1_written_regions_fixed (m : Method) (r : Region)
    (a1 a2 : CurrentAthlete.State) (b1 b2 : ScoreMultiRanks.State)
    (hm : m ≠ Method.start)
    (hn : m = Method.refereeDecision →
      r = Region.Decision ∨ r = Region.Weight ∨ r = Region.AthleteTimer
        ∨ r = Region.BreakTimer ∨ r = Region.Group)
    (hd : m = Method.down ∧ r = Region.FullName →
      CurrentAthlete.Reachable a1 ∧ CurrentAthlete.Reachable a2
        ∧ ScoreMultiRanks.Reachable b1 ∧ ScoreMultiRanks.Reachable b2) :
    CurrentAthlete.regionValue (CurrentAthlete.call m a1) r
        = CurrentAthlete.regionValue (CurrentAthlete.call m a2) r
    ∧ ScoreMultiRanks.regionValue (ScoreMultiRanks.call m b1) r
        = ScoreMultiRanks.regionValue (ScoreMultiRanks.call m b2) r := by
  by_cases hdf : m = Method.down ∧ r = Region.FullName
  · obtain ⟨ha1, ha2, hb1, hb2⟩ := hd hdf
    obtain ⟨rfl, rfl⟩ := hdf
    have e1 := CurrentAthlete.grid_fullName_reachable a1 ha1
    have e2 := CurrentAthlete.grid_fullName_reachable a2 ha2
    have e3 := ScoreMultiRanks.flex_fullName_reachable b1 hb1
    have e4 := ScoreMultiRanks.flex_fullName_reachable b2 hb2
    constructor
    · show some [a1.fullNameDiv.visibility, a1.fullNameDiv.display]
          = some [a2.fullNameDiv.visibility, a2.fullNameDiv.display]
      rw [e1, e2]
    · show some [b1.fullNameDiv.visibility, b1.fullNameDiv.display]
          = some [b2.fullNameDiv.visibility, b2.fullNameDiv.display]
      rw [e3, e4]
  · cases m <;> cases r <;>
      first
        | exact ⟨rfl, rfl⟩
        | exact absurd rfl hm
        | (exfalso; simpa using hn rfl)
        | (exfalso; simp at hdf)

/-- Witness of C1 amended: `down` on FullName, from the state after `ready` and
the state after `ready` then `doBreak`. -/
theorem C1_written_regions_fixed_witness :
    CurrentAthlete.regionValue
        (CurrentAthlete.call Method.down (CurrentAthlete.ready CurrentAthlete.template))
        Region.FullName
      = CurrentAthlete.regionValue
        (CurrentAthlete.call Method.down
          (CurrentAthlete.doBreak (CurrentAthlete.ready CurrentAthlete.template)))
        Region.FullName
    ∧ ScoreMultiRanks.regionValue
        (ScoreMultiRanks.call Method.down (ScoreMultiRanks.ready ScoreMultiRanks.template))
        Region.FullName
      = ScoreMultiRanks.regionValue
        (ScoreMultiRanks.call Method.down
          (ScoreMultiRanks.doBreak (ScoreMultiRanks.ready ScoreMultiRanks.template)))
        Region.FullName :=
  C1_written_regions_fixed Method.down Region.FullName _ _ _ _
    (by decide) (fun hc => absurd hc (by decide))
    (fun _ => ⟨⟨CurrentAthlete.template, [], rfl⟩,
               ⟨CurrentAthlete.template, [Method.doBreak], rfl⟩,
               ⟨ScoreMultiRanks.template, [], rfl⟩,
               ⟨ScoreMultiRanks.template, [Method.doBreak], rfl⟩⟩)

/-! ## C2 -/

/-- C2: calling a transition method twice in a row leaves every region with the
same style as calling it once, in both components. -/
theorem C2_idempotent (m : Method) (r : Region) :
    (∀ s : CurrentAthlete.State,
        CurrentAthlete.style (CurrentAthlete.call m (CurrentAthlete.call m s)) r
          = CurrentAthlete.style (CurrentAthlete.call m s) r)
    ∧ (∀ s : ScoreMultiRanks.State,
        ScoreMultiRanks.style (ScoreMultiRanks.call m (ScoreMultiRanks.call m s)) r
          = ScoreMultiRanks.style (ScoreMultiRanks.call m s) r) := by
  cases m <;> cases r <;> exact ⟨fun _ => rfl, fun _ => rfl⟩

/-! ## C3 -/

/-- C3: `refereeDecision` shows Decision, Weight and AthleteTimer (`grid` in
`CurrentAthlete`, `flex` in `ScoreMultiRanks`), hides BreakTimer (`none`), and
leaves the styles of StartNumber, TeamName, Attempt and FullName as they were. -/
theorem C3_refereeDecision_narrow :
    (∀ s : CurrentAthlete.State,
        (CurrentAthlete.refereeDecision s).decisionDiv.display = "grid"
        ∧ (CurrentAthlete.refereeDecision s).weightDiv.display = "grid"
        ∧ (CurrentAthlete.refereeDecision s).timerDiv.display = "grid"
        ∧ (CurrentAthlete.refereeDecision s).breakTimerDiv.display = "none"
        ∧ (CurrentAthlete.refereeDecision s).startNumberDiv = s.startNumberDiv
        ∧ (CurrentAthlete.refereeDecision s).teamNameDiv = s.teamNameDiv
        ∧ (CurrentAthlete.refereeDecision s).attemptDiv = s.attemptDiv
        ∧ (CurrentAthlete.refereeDecision s).fullNameDiv = s.fullNameDiv)
    ∧ (∀ s : ScoreMultiRanks.State,
        (ScoreMultiRanks.refereeDecision s).decisionDiv.display = "flex"
        ∧ (ScoreMultiRanks.refereeDecision s).weightDiv.display = "flex"
        ∧ (ScoreMultiRanks.refereeDecision s).timerDiv.display = "flex"
        ∧ (ScoreMultiRanks.refereeDecision s).breakTimerDiv.display = "none"
        ∧ (ScoreMultiRanks.refereeDecision s).startNumberDiv = s.startNumberDiv
        ∧ (ScoreMultiRanks.refereeDecision s).teamNameDiv = s.teamNameDiv
        ∧ (ScoreMultiRanks.refereeDecision s).attemptDiv = s.attemptDiv
        ∧ (ScoreMultiRanks.refereeDecision s).fullNameDiv = s.fullNameDiv) :=
  ⟨fun _ => ⟨rfl, rfl, rfl, rfl, rfl, rfl, rfl, rfl⟩,
   fun _ => ⟨rfl, rfl, rfl, rfl, rfl, rfl, rfl, rfl⟩⟩

/-! ## C4 -/

/-- C4: after `doBreak`, from any state, BreakTimer is shown; AthleteTimer,
StartNumber, TeamName, Attempt, Weight and Decision have display `none`; and
FullName has visibility `visible` and a display other than `none`. -/
theorem C4_doBreak_table :
    (∀ s : CurrentAthlete.State,
        (CurrentAthlete.doBreak s).breakTimerDiv.display = "grid"
        ∧ (CurrentAthlete.doBreak s).timerDiv.display = "none"
        ∧ (CurrentAthlete.doBreak s).startNumberDiv.display = "none"
        ∧ (CurrentAthlete.doBreak s).teamNameDiv.display = "none"
        ∧ (CurrentAthlete.doBreak s).attemptDiv.display = "none"
        ∧ (CurrentAthlete.doBreak s).weightDiv.display = "none"
        ∧ (CurrentAthlete.doBreak s).decisionDiv.display = "none"
        ∧ (CurrentAthlete.doBreak s).fullNameDiv.visibility = "visible"
        ∧ (CurrentAthlete.doBreak s).fullNameDiv.display ≠ "none")
    ∧ (∀ s : ScoreMultiRanks.State,
        (ScoreMultiRanks.doBreak s).breakTimerDiv.display = "flex"
        ∧ (ScoreMultiRanks.doBreak s).timerDiv.display = "none"
        ∧ (ScoreMultiRanks.doBreak s).startNumberDiv.display = "none"
        ∧ (ScoreMultiRanks.doBreak s).teamNameDiv.display = "none"
        ∧ (ScoreMultiRanks.doBreak s).attemptDiv.display = "none"
        ∧ (ScoreMultiRanks.doBreak s).weightDiv.display = "none"
        ∧ (ScoreMultiRanks.doBreak s).decisionDiv.display = "none"
        ∧ (ScoreMultiRanks.doBreak s).fullNameDiv.visibility = "visible"
        ∧ (ScoreMultiRanks.doBreak s).fullNameDiv.display ≠ "none") :=
  ⟨fun _ => ⟨rfl, rfl, rfl, rfl, rfl, rfl, rfl, rfl,
      (by decide : ("grid" : String) ≠ "none")⟩,
   fun _ => ⟨rfl, rfl, rfl, rfl, rfl, rfl, rfl, rfl,
      (by decide : ("flex" : String) ≠ "none")⟩⟩

/-! ## C5 -/

/-- C5, as stated, fails: right after `ready` the Group label of
`ScoreMultiRanks` has visibility `visible`, and `doBreak` then sets it to
`hidden`, while FullName stays `visible`. -/
theorem C5_doBreak_hides_group_after_ready :
    (ScoreMultiRanks.ready ScoreMultiRanks.template).groupDiv.visibility = "visible"
    ∧ (ScoreMultiRanks.doBreak
        (ScoreMultiRanks.ready ScoreMultiRanks.template)).groupDiv.visibility = "hidden"
    ∧ (ScoreMultiRanks.doBreak
        (ScoreMultiRanks.ready ScoreMultiRanks.template)).groupDiv.visibility ≠ "visible"
    ∧ (ScoreMultiRanks.doBreak
        (ScoreMultiRanks.ready ScoreMultiRanks.template)).fullNameDiv.visibility = "visible" :=
  ⟨rfl, rfl, by decide, rfl⟩

/-- C5, amended: in `ScoreMultiRanks`, from every state, `doBreak` sets the
visibility of the Group label to `hidden` (and leaves its display untouched),
unlike FullName, which it sets to `visible`. -/
theorem C5_doBreak_hides_group (s : ScoreMultiRanks.State) :
    (ScoreMultiRanks.doBreak s).groupDiv.visibility = "hidden"
    ∧ (ScoreMultiRanks.doBreak s).groupDiv.display = s.groupDiv.display
    ∧ (ScoreMultiRanks.doBreak s).fullNameDiv.visibility = "visible" :=
  ⟨rfl, rfl, rfl⟩

/-! ## C6 -/

/-- C6: in every state reached from `ready` by a finite sequence of transition
methods, `down` yields a state where Decision is shown, BreakTimer has display
`none`, and FullName, StartNumber, TeamName, Attempt, Weight and AthleteTimer
are shown (FullName with visibility `visible`). -/
theorem C6_down_after_reachable (ms : List Method) :
    (∀ s0 : CurrentAthlete.State,
        (CurrentAthlete.down
            (CurrentAthlete.run ms (CurrentAthlete.ready s0))).decisionDiv.display = "grid"
        ∧ (CurrentAthlete.down
            (CurrentAthlete.run ms (CurrentAthlete.ready s0))).breakTimerDiv.display = "none"
        ∧ (CurrentAthlete.down
            (CurrentAthlete.run ms (CurrentAthlete.ready s0))).fullNameDiv
            = ⟨"grid", "visible"⟩
        ∧ (CurrentAthlete.down
            (CurrentAthlete.run ms (CurrentAthlete.ready s0))).startNumberDiv.display = "grid"
        ∧ (CurrentAthlete.down
            (CurrentAthlete.run ms (CurrentAthlete.ready s0))).teamNameDiv.display = "grid"
        ∧ (CurrentAthlete.down
            (CurrentAthlete.run ms (CurrentAthlete.ready s0))).attemptDiv.display = "grid"
        ∧ (CurrentAthlete.down
            (CurrentAthlete.run ms (CurrentAthlete.ready s0))).weightDiv.display = "grid"
        ∧ (CurrentAthlete.down
            (CurrentAthlete.run ms (CurrentAthlete.ready s0))).timerDiv.display = "grid")
    ∧ (∀ s0 : ScoreMultiRanks.State,
        (ScoreMultiRanks.down
            (ScoreMultiRanks.run ms (ScoreMultiRanks.ready s0))).decisionDiv.display = "flex"
        ∧ (ScoreMultiRanks.down
            (ScoreMultiRanks.run ms (ScoreMultiRanks.ready s0))).breakTimerDiv.display = "none"
        ∧ (ScoreMultiRanks.down
            (ScoreMultiRanks.run ms (ScoreMultiRanks.ready s0))).fullNameDiv
            = ⟨"flex", "visible"⟩
        ∧ (ScoreMultiRanks.down
            (ScoreMultiRanks.run ms (ScoreMultiRanks.ready s0))).startNumberDiv.display = "flex"
        ∧ (ScoreMultiRanks.down
            (ScoreMultiRanks.run ms (ScoreMultiRanks.ready s0))).teamNameDiv.display = "flex"
        ∧ (ScoreMultiRanks.down
            (ScoreMultiRanks.run ms (ScoreMultiRanks.ready s0))).attemptDiv.display = "flex"
        ∧ (ScoreMultiRanks.down
            (ScoreMultiRanks.run ms (ScoreMultiRanks.ready s0))).weightDiv.display = "flex"
        ∧ (ScoreMultiRanks.down
            (ScoreMultiRanks.run ms (ScoreMultiRanks.ready s0))).timerDiv.display = "flex") := by
  refine ⟨fun s0 => ⟨rfl, rfl, ?_, rfl, rfl, rfl, rfl, rfl⟩,
          fun s0 => ⟨rfl, rfl, ?_, rfl, rfl, rfl, rfl, rfl⟩⟩
  · exact CurrentAthlete.grid_fullName_call Method.down _
      (CurrentAthlete.grid_fullName_run ms _ rfl)
  · exact ScoreMultiRanks.flex_fullName_call Method.down _
      (ScoreMultiRanks.flex_fullName_run ms _ rfl)

/-! ## C7 -/

/-- C7: after `groupDone`, from any state, StartNumber, TeamName, Attempt,
Weight, AthleteTimer, BreakTimer and Decision have display `none` and FullName
is shown; in particular `doBreak`, which shows BreakTimer, followed by
`groupDone` ends with BreakTimer at display `none`. -/
theorem C7_groupDone_table :
    (∀ s : CurrentAthlete.State,
        (CurrentAthlete.groupDone s).startNumberDiv.display = "none"
        ∧ (CurrentAthlete.groupDone s).teamNameDiv.display = "none"
        ∧ (CurrentAthlete.groupDone s).attemptDiv.display = "none"
        ∧ (CurrentAthlete.groupDone s).weightDiv.display = "none"
        ∧ (CurrentAthlete.groupDone s).timerDiv.display = "none"
        ∧ (CurrentAthlete.groupDone s).breakTimerDiv.display = "none"
        ∧ (CurrentAthlete.groupDone s).decisionDiv.display = "none"
        ∧ (CurrentAthlete.groupDone s).fullNameDiv = ⟨"grid", "visible"⟩
        ∧ (CurrentAthlete.doBreak s).breakTimerDiv.display = "grid"
        ∧ (CurrentAthlete.groupDone (CurrentAthlete.doBreak s)).breakTimerDiv.display = "none")
    ∧ (∀ s : ScoreMultiRanks.State,
        (ScoreMultiRanks.groupDone s).startNumberDiv.display = "none"
        ∧ (ScoreMultiRanks.groupDone s).teamNameDiv.display = "none"
        ∧ (ScoreMultiRanks.groupDone s).attemptDiv.display = "none"
        ∧ (ScoreMultiRanks.groupDone s).weightDiv.display = "none"
        ∧ (ScoreMultiRanks.groupDone s).timerDiv.display = "none"
        ∧ (ScoreMultiRanks.groupDone s).breakTimerDiv.display = "none"
        ∧ (ScoreMultiRanks.groupDone s).decisionDiv.display = "none"
        ∧ (ScoreMultiRanks.groupDone s).fullNameDiv = ⟨"flex", "visible"⟩
        ∧ (ScoreMultiRanks.doBreak s).breakTimerDiv.display = "flex"
        ∧ (ScoreMultiRanks.groupDone
            (ScoreMultiRanks.doBreak s)).breakTimerDiv.display = "none") :=
  ⟨fun _ => ⟨rfl, rfl, rfl, rfl, rfl, rfl, rfl, rfl, rfl, rfl⟩,
   fun _ => ⟨rfl, rfl, rfl, rfl, rfl, rfl, rfl, rfl, rfl, rfl⟩⟩

/-! ## C8 -/

/-- C8: `reset` and `ready` give every region the same style, from every state:
FullName, StartNumber, TeamName, Attempt, Weight and AthleteTimer shown,
BreakTimer and Decision at display `none`, and Group `visible` in
`ScoreMultiRanks`. -/
theorem C8_reset_same_as_ready :
    (∀ s : CurrentAthlete.State,
        (∀ r : Region,
          CurrentAthlete.style (CurrentAthlete.reset s) r
            = CurrentAthlete.style (CurrentAthlete.ready s) r)
        ∧ (CurrentAthlete.ready s).fullNameDiv = ⟨"grid", "visible"⟩
        ∧ (CurrentAthlete.ready s).startNumberDiv.display = "grid"
        ∧ (CurrentAthlete.ready s).teamNameDiv.display = "grid"
        ∧ (CurrentAthlete.ready s).attemptDiv.display = "grid"
        ∧ (CurrentAthlete.ready s).weightDiv.display = "grid"
        ∧ (CurrentAthlete.ready s).timerDiv.display = "grid"
        ∧ (CurrentAthlete.ready s).breakTimerDiv.display = "none"
        ∧ (CurrentAthlete.ready s).decisionDiv.display = "none")
    ∧ (∀ s : ScoreMultiRanks.State,
        (∀ r : Region,
          ScoreMultiRanks.style (ScoreMultiRanks.reset s) r
            = ScoreMultiRanks.style (ScoreMultiRanks.ready s) r)
        ∧ (ScoreMultiRanks.ready s).fullNameDiv = ⟨"flex", "visible"⟩
        ∧ (ScoreMultiRanks.ready s).startNumberDiv.display = "flex"
        ∧ (ScoreMultiRanks.ready s).teamNameDiv.display = "flex"
        ∧ (ScoreMultiRanks.ready s).attemptDiv.display = "flex"
        ∧ (ScoreMultiRanks.ready s).weightDiv.display = "flex"
        ∧ (ScoreMultiRanks.ready s).timerDiv.display = "flex"
        ∧ (ScoreMultiRanks.ready s).breakTimerDiv.display = "none"
        ∧ (ScoreMultiRanks.ready s).decisionDiv.display = "none"
        ∧ (ScoreMultiRanks.ready s).groupDiv.visibility = "visible") :=
  ⟨fun _ => ⟨fun r => by cases r <;> rfl, rfl, rfl, rfl, rfl, rfl, rfl, rfl, rfl⟩,
   fun _ => ⟨fun r => by cases r <;> rfl, rfl, rfl, rfl, rfl, rfl, rfl, rfl, rfl, rfl⟩⟩

/-! ## C9 -/

/-- C9: `start` sends exactly one `start` call to the athlete timer and leaves
the style of every region, and everything else, as it was. -/
theorem C9_start_frame :
    (∀ s : CurrentAthlete.State,
        (∀ r : Region,
          CurrentAthlete.style (CurrentAthlete.start s) r = CurrentAthlete.style s r)
        ∧ (CurrentAthlete.start s).timer = s.timer ++ [TimerCall.start]
        ∧ (CurrentAthlete.start s).console = s.console
        ∧ (CurrentAthlete.start s).bodyTheme = s.bodyTheme)
    ∧ (∀ s : ScoreMultiRanks.State,
        (∀ r : Region,
          ScoreMultiRanks.style (ScoreMultiRanks.start s) r = ScoreMultiRanks.style s r)
        ∧ (ScoreMultiRanks.start s).timer = s.timer ++ [TimerCall.start]
        ∧ (ScoreMultiRanks.start s).console = s.console) :=
  ⟨fun _ => ⟨fun r => by cases r <;> rfl, rfl, rfl, rfl⟩,
   fun _ => ⟨fun r => by cases r <;> rfl, rfl, rfl⟩⟩

/-! ## C10 -/

/-- C10: the two components carry the same transition table on the eight shared
regions.  From corresponding states the same method leads to corresponding
states (`grid` renamed to `flex`); a shared region is left untouched by a
method of one component exactly when it is by the other; both make the same
calls on the timer and the console; and the only further assignment of
`ScoreMultiRanks` is the Group visibility: `visible` in `ready`, `reset`,
`down` and `refereeDecision`, `hidden` in `doBreak` and `groupDone`. -/
theorem C10_same_table (m : Method) (a : CurrentAthlete.State) (b : ScoreMultiRanks.State)
    (h : Corresponds a b) :
    Corresponds (CurrentAthlete.call m a) (ScoreMultiRanks.call m b)
    ∧ (∀ r : Region, r ≠ Region.Group →
        ((∀ s : CurrentAthlete.State,
            CurrentAthlete.style (CurrentAthlete.call m s) r = CurrentAthlete.style s r)
          ↔ (∀ s : ScoreMultiRanks.State,
            ScoreMultiRanks.style (ScoreMultiRanks.call m s) r = ScoreMultiRanks.style s r)))
    ∧ (∃ (t : List TimerCall) (c : List String),
        (CurrentAthlete.call m a).timer = a.timer ++ t
        ∧ (ScoreMultiRanks.call m b).timer = b.timer ++ t
        ∧ (CurrentAthlete.call m a).console = a.console ++ c
        ∧ (ScoreMultiRanks.call m b).console = b.console ++ c)
    ∧ (ScoreMultiRanks.call m b).groupDiv.display = b.groupDiv.display
    ∧ ((m = Method.ready ∨ m = Method.reset ∨ m = Method.down ∨ m = Method.refereeDecision) →
        (ScoreMultiRanks.call m b).groupDiv.visibility = "visible")
    ∧ ((m = Method.doBreak ∨ m = Method.groupDone) →
        (ScoreMultiRanks.call m b).groupDiv.visibility = "hidden")
    ∧ (m = Method.start →
        (ScoreMultiRanks.call m b).groupDiv.visibility = b.groupDiv.visibility) := by
  refine ⟨?_, ?_, ?_, ?_, ?_, ?_, ?_⟩
  · intro r hr
    have hv := h r hr
    obtain ⟨bg, bf, bs, bt, ba, bw, bti, bb, bd, btm, bc⟩ := b
    cases m <;> cases r <;>
      first
        | exact absurd rfl hr
        | exact hv
        | (simp only [CurrentAthlete.style, ScoreMultiRanks.style, Option.map_some',
            Option.some.injEq] at hv ⊢
           subst hv
           rfl)
  · intro r hr
    cases m <;> cases r <;>
      first
        | exact absurd rfl hr
        | exact ⟨fun _ _ => rfl, fun _ _ => rfl⟩
        | exact ⟨fun hc => absurd (hc CurrentAthlete.template) (by decide),
                 fun hs => absurd (hs ScoreMultiRanks.template) (by decide)⟩
  · cases m
    · exact ⟨[], ["ready"], by simp [CurrentAthlete.call, CurrentAthlete.ready],
        by simp [ScoreMultiRanks.call, ScoreMultiRanks.ready], rfl, rfl⟩
    · exact ⟨[TimerCall.start], [], rfl, rfl,
        by simp [CurrentAthlete.call, CurrentAthlete.start],
        by simp [ScoreMultiRanks.call, ScoreMultiRanks.start]⟩
    · exact ⟨[TimerCall.reset], ["reset"], rfl, rfl, rfl, rfl⟩
    · exact ⟨[], ["refereeDecision"], by simp [CurrentAthlete.call, CurrentAthlete.down],
        by simp [ScoreMultiRanks.call, ScoreMultiRanks.down], rfl, rfl⟩
    · exact ⟨[], ["break"], by simp [CurrentAthlete.call, CurrentAthlete.doBreak],
        by simp [ScoreMultiRanks.call, ScoreMultiRanks.doBreak], rfl, rfl⟩
    · exact ⟨[], ["done"], by simp [CurrentAthlete.call, CurrentAthlete.groupDone],
        by simp [ScoreMultiRanks.call, ScoreMultiRanks.groupDone], rfl, rfl⟩
    · exact ⟨[], ["refereeDecision"],
        by simp [CurrentAthlete.call, CurrentAthlete.refereeDecision],
        by simp [ScoreMultiRanks.call, ScoreMultiRanks.refereeDecision], rfl, rfl⟩
  · cases m <;> rfl
  · intro hm
    cases m <;> first | rfl | (exfalso; simp at hm)
  · intro hm
    cases m <;> first | rfl | (exfalso; simp at hm)
  · intro hm
    subst hm
    rfl

/-- Witness of C10: `refereeDecision` called in both components on the states
reached by `ready` then `doBreak` from the stamped templates. -/
theorem C10_same_table_witness :
    Corresponds (CurrentAthlete.doBreak (CurrentAthlete.ready CurrentAthlete.template))
        (ScoreMultiRanks.doBreak (ScoreMultiRanks.ready ScoreMultiRanks.template))
    ∧ (Corresponds
        (CurrentAthlete.call Method.refereeDecision
          (CurrentAthlete.doBreak (CurrentAthlete.ready CurrentAthlete.template)))
        (ScoreMultiRanks.call Method.refereeDecision
          (ScoreMultiRanks.doBreak (ScoreMultiRanks.ready ScoreMultiRanks.template)))
      ∧ (∀ r : Region, r ≠ Region.Group →
          ((∀ s : CurrentAthlete.State,
              CurrentAthlete.style (CurrentAthlete.call Method.refereeDecision s) r
                = CurrentAthlete.style s r)
            ↔ (∀ s : ScoreMultiRanks.State,
              ScoreMultiRanks.style (ScoreMultiRanks.call Method.refereeDecision s) r
                = ScoreMultiRanks.style s r)))
      ∧ (∃ (t : List TimerCall) (c : List String),
          (CurrentAthlete.call Method.refereeDecision
              (CurrentAthlete.doBreak (CurrentAthlete.ready CurrentAthlete.template))).timer
            = (CurrentAthlete.doBreak (CurrentAthlete.ready CurrentAthlete.template)).timer ++ t
          ∧ (ScoreMultiRanks.call Method.refereeDecision
              (ScoreMultiRanks.doBreak (ScoreMultiRanks.ready ScoreMultiRanks.template))).timer
            = (ScoreMultiRanks.doBreak (ScoreMultiRanks.ready ScoreMultiRanks.template)).timer
                ++ t
          ∧ (CurrentAthlete.call Method.refereeDecision
              (CurrentAthlete.doBreak (CurrentAthlete.ready CurrentAthlete.template))).console
            = (CurrentAthlete.doBreak (CurrentAthlete.ready CurrentAthlete.template)).console
                ++ c
          ∧ (ScoreMultiRanks.call Method.refereeDecision
              (ScoreMultiRanks.doBreak (ScoreMultiRanks.ready ScoreMultiRanks.template))).console
            = (ScoreMultiRanks.doBreak (ScoreMultiRanks.ready ScoreMultiRanks.template)).console
                ++ c)
      ∧ (ScoreMultiRanks.call Method.refereeDecision
            (ScoreMultiRanks.doBreak
              (ScoreMultiRanks.ready ScoreMultiRanks.template))).groupDiv.display
          = (ScoreMultiRanks.doBreak
              (ScoreMultiRanks.ready ScoreMultiRanks.template)).groupDiv.display
      ∧ ((Method.refereeDecision = Method.ready ∨ Method.refereeDecision = Method.reset
            ∨ Method.refereeDecision = Method.down
            ∨ Method.refereeDecision = Method.refereeDecision) →
          (ScoreMultiRanks.call Method.refereeDecision
            (ScoreMultiRanks.doBreak
              (ScoreMultiRanks.ready ScoreMultiRanks.template))).groupDiv.visibility = "visible")
      ∧ ((Method.refereeDecision = Method.doBreak
            ∨ Method.refereeDecision = Method.groupDone) →
          (ScoreMultiRanks.call Method.refereeDecision
            (ScoreMultiRanks.doBreak
              (ScoreMultiRanks.ready ScoreMultiRanks.template))).groupDiv.visibility = "hidden")
      ∧ (Method.refereeDecision = Method.start →
          (ScoreMultiRanks.call Method.refereeDecision
            (ScoreMultiRanks.doBreak
              (ScoreMultiRanks.ready ScoreMultiRanks.template))).groupDiv.visibility
            = (ScoreMultiRanks.doBreak
                (ScoreMultiRanks.ready ScoreMultiRanks.template)).groupDiv.visibility)) :=
  have hc : Corresponds (CurrentAthlete.doBreak (CurrentAthlete.ready CurrentAthlete.template))
      (ScoreMultiRanks.doBreak (ScoreMultiRanks.ready ScoreMultiRanks.template)) :=
    fun r hr => by cases r <;> first | rfl | exact absurd rfl hr
  ⟨hc, C10_same_table Method.refereeDecision _ _ hc⟩

/-! ## C12 -/

/-- Every method of `CurrentAthlete` keeps: BreakTimer has display `none`, or
AthleteTimer and Decision both have display `none`. -/
theorem CurrentAthlete.break_excl_call (m : Method) (s : CurrentAthlete.State)
    (h : s.breakTimerDiv.display = "none"
      ∨ (s.timerDiv.display = "none" ∧ s.decisionDiv.display = "none")) :
    (CurrentAthlete.call m s).breakTimerDiv.display = "none"
      ∨ ((CurrentAthlete.call m s).timerDiv.display = "none"
          ∧ (CurrentAthlete.call m s).decisionDiv.display = "none") := by
  cases m
  · exact Or.inl rfl
  · exact h
  · exact Or.inl rfl
  · exact Or.inl rfl
  · exact Or.inr ⟨rfl, rfl⟩
  · exact Or.inl rfl
  · exact Or.inl rfl

/-- Every method of `ScoreMultiRanks` keeps: BreakTimer has display `none`, or
AthleteTimer and Decision both have display `none`. -/
theorem ScoreMultiRanks.smr_break_excl_call (m : Method) (s : ScoreMultiRanks.State)
    (h : s.breakTimerDiv.display = "none"
      ∨ (s.timerDiv.display = "none" ∧ s.decisionDiv.display = "none")) :
    (ScoreMultiRanks.call m s).breakTimerDiv.display = "none"
      ∨ ((ScoreMultiRanks.call m s).timerDiv.display = "none"
          ∧ (ScoreMultiRanks.call m s).decisionDiv.display = "none") := by
  cases m
  · exact Or.inl rfl
  · exact h
  · exact Or.inl rfl
  · exact Or.inl rfl
  · exact Or.inr ⟨rfl, rfl⟩
  · exact Or.inl rfl
  · exact Or.inl rfl

/-- The exclusion of `break_excl_call` holds along any run of `CurrentAthlete`. -/
theorem CurrentAthlete.break_excl_run (ms : List Method) (s : CurrentAthlete.State)
    (h : s.breakTimerDiv.display = "none"
      ∨ (s.timerDiv.display = "none" ∧ s.decisionDiv.display = "none")) :
    (CurrentAthlete.run ms s).breakTimerDiv.display = "none"
      ∨ ((CurrentAthlete.run ms s).timerDiv.display = "none"
          ∧ (CurrentAthlete.run ms s).decisionDiv.display = "none") := by
  induction ms generalizing s with
  | nil => exact h
  | cons m rest ih =>
    exact ih (CurrentAthlete.call m s) (CurrentAthlete.break_excl_call m s h)

/-- The exclusion of `break_excl_call` holds along any run of `ScoreMultiRanks`. -/
theorem ScoreMultiRanks.smr_break_excl_run (ms : List Method) (s : ScoreMultiRanks.State)
    (h : s.breakTimerDiv.display = "none"
      ∨ (s.timerDiv.display = "none" ∧ s.decisionDiv.display = "none")) :
    (ScoreMultiRanks.run ms s).breakTimerDiv.display = "none"
      ∨ ((ScoreMultiRanks.run ms s).timerDiv.display = "none"
          ∧ (ScoreMultiRanks.run ms s).decisionDiv.display = "none") := by
  induction ms generalizing s with
  | nil => exact h
  | cons m rest ih =>
    exact ih (ScoreMultiRanks.call m s) (ScoreMultiRanks.smr_break_excl_call m s h)

/-- C12: in every state reached from `ready` by a finite sequence of transition
methods, in both components, if BreakTimer is shown (display other than
`none`) then AthleteTimer and Decision both have display `none`. -/
theorem C12_break_excludes_timer_and_decision
    (a : CurrentAthlete.State) (b : ScoreMultiRanks.State)
    (ha : CurrentAthlete.Reachable a) (hb : ScoreMultiRanks.Reachable b) :
    (a.breakTimerDiv.display ≠ "none" →
        a.timerDiv.display = "none" ∧ a.decisionDiv.display = "none")
    ∧ (b.breakTimerDiv.display ≠ "none" →
        b.timerDiv.display = "none" ∧ b.decisionDiv.display = "none") := by
  obtain ⟨a0, ms, rfl⟩ := ha
  obtain ⟨b0, ns, rfl⟩ := hb
  constructor
  · intro hv
    rcases CurrentAthlete.break_excl_run ms (CurrentAthlete.ready a0) (Or.inl rfl) with h | h
    · exact absurd h hv
    · exact h
  · intro hv
    rcases ScoreMultiRanks.smr_break_excl_run ns (ScoreMultiRanks.ready b0) (Or.inl rfl)
      with h | h
    · exact absurd h hv
    · exact h

/-- Witness of C12: the states after `ready`, `doBreak`, `start`, where
BreakTimer is shown. -/
theorem C12_break_excludes_timer_and_decision_witness :
    (CurrentAthlete.run [Method.doBreak, Method.start]
        (CurrentAthlete.ready CurrentAthlete.template)).breakTimerDiv.display = "grid"
    ∧ (ScoreMultiRanks.run [Method.doBreak, Method.start]
        (ScoreMultiRanks.ready ScoreMultiRanks.template)).breakTimerDiv.display = "flex"
    ∧ ((CurrentAthlete.run [Method.doBreak, Method.start]
          (CurrentAthlete.ready CurrentAthlete.template)).timerDiv.display = "none"
        ∧ (CurrentAthlete.run [Method.doBreak, Method.start]
          (CurrentAthlete.ready CurrentAthlete.template)).decisionDiv.display = "none")
    ∧ ((ScoreMultiRanks.run [Method.doBreak, Method.start]
          (ScoreMultiRanks.ready ScoreMultiRanks.template)).timerDiv.display = "none"
        ∧ (ScoreMultiRanks.run [Method.doBreak, Method.start]
          (ScoreMultiRanks.ready ScoreMultiRanks.template)).decisionDiv.display = "none") :=
  have hw := C12_break_excludes_timer_and_decision
    (CurrentAthlete.run [Method.doBreak, Method.start]
      (CurrentAthlete.ready CurrentAthlete.template))
    (ScoreMultiRanks.run [Method.doBreak, Method.start]
      (ScoreMultiRanks.ready ScoreMultiRanks.template))
    ⟨CurrentAthlete.template, [Method.doBreak, Method.start], rfl⟩
    ⟨ScoreMultiRanks.template, [Method.doBreak, Method.start], rfl⟩
  ⟨rfl, rfl, hw.1 (by decide), hw.2 (by decide)⟩

/-! ## C11 -/

/-- Truthiness of a negated value. -/
theorem JSValue.truthy_lnot (v : JSValue) : v.lnot.truthy = !v.truthy := rfl

/-- The rows stamped by `CurrentAthlete` for a list of items. -/
theorem CurrentAthlete.resultTable_eq (t : CurrentAthlete.Translations)
    (athletes : List CurrentAthlete.Row) :
    CurrentAthlete.resultTable t athletes
      = (athletes.filter (fun l => !l.isSpacer.truthy)).map (CurrentAthlete.dataRow t) := by
  induction athletes with
  | nil => rfl
  | cons l rest ih =>
    have hstep : CurrentAthlete.resultTable t (l :: rest)
        = CurrentAthlete.rowTemplates t l ++ CurrentAthlete.resultTable t rest := rfl
    rw [hstep, ih]
    cases hsp : l.isSpacer.truthy <;>
      simp [CurrentAthlete.rowTemplates, domIf, JSValue.truthy_lnot, hsp]

/-- The rows stamped by a `result-table` repeat of `ScoreMultiRanks`. -/
theorem ScoreMultiRanks.domRepeat_rowTemplates (rows : List ScoreMultiRanks.Row) :
    domRepeat rows ScoreMultiRanks.rowTemplates
      = rows.map (fun l =>
          if l.isSpacer.truthy then ScoreMultiRanks.spacerRow else ScoreMultiRanks.dataRow l) := by
  induction rows with
  | nil => rfl
  | cons l rest ih =>
    have hstep : domRepeat (l :: rest) ScoreMultiRanks.rowTemplates
        = ScoreMultiRanks.rowTemplates l ++ domRepeat rest ScoreMultiRanks.rowTemplates := rfl
    rw [hstep, ih]
    cases hsp : l.isSpacer.truthy <;>
      simp [ScoreMultiRanks.rowTemplates, domIf, JSValue.truthy_lnot, hsp]

/-- C11: for every row `l` of a results or leaders sequence exactly one of the
two `dom-if` templates is stamped, chosen by the truthiness of `l.isSpacer`.
A spacer row stamps, in `ScoreMultiRanks`, one `tr` holding a single empty
`td` of class `spacer` with `colspan` 100% and nothing read from the row, and
in `CurrentAthlete` nothing; the table therefore holds the data rows of the
non-spacer items only, in order. -/
theorem C11_spacer_rows_carry_no_data (t : CurrentAthlete.Translations) :
    (∀ l : ScoreMultiRanks.Row,
        ScoreMultiRanks.rowTemplates l
          = if l.isSpacer.truthy then
              [Html.element "tr" []
                [Html.element "td"
                  [("colspan", "100%"), ("style", "height:0.1ex; border:none"),
                   ("class", "spacer")] []]]
            else [ScoreMultiRanks.dataRow l])
    ∧ (∀ l : ScoreMultiRanks.Row,
        (domIf l.isSpacer [ScoreMultiRanks.spacerRow]).length
          + (domIf l.isSpacer.lnot [ScoreMultiRanks.dataRow l]).length = 1)
    ∧ (∀ athletes : List ScoreMultiRanks.Row,
        ScoreMultiRanks.resultTable athletes
          = athletes.map (fun l =>
              if l.isSpacer.truthy then ScoreMultiRanks.spacerRow
              else ScoreMultiRanks.dataRow l))
    ∧ (∀ leaders : List ScoreMultiRanks.Row,
        ScoreMultiRanks.leadersTable leaders
          = leaders.map (fun l =>
              if l.isSpacer.truthy then ScoreMultiRanks.spacerRow
              else ScoreMultiRanks.dataRow l))
    ∧ (∀ l : CurrentAthlete.Row,
        CurrentAthlete.rowTemplates t l
          = if l.isSpacer.truthy then [] else [CurrentAthlete.dataRow t l])
    ∧ (∀ athletes : List CurrentAthlete.Row,
        CurrentAthlete.resultTable t athletes
          = (athletes.filter (fun l => !l.isSpacer.truthy)).map (CurrentAthlete.dataRow t)) := by
  refine ⟨?_, ?_, ?_, ?_, ?_, ?_⟩
  · intro l
    cases hsp : l.isSpacer.truthy <;>
      simp [ScoreMultiRanks.rowTemplates, ScoreMultiRanks.spacerRow, domIf,
        JSValue.truthy_lnot, hsp]
  · intro l
    cases hsp : l.isSpacer.truthy <;> simp [domIf, JSValue.truthy_lnot, hsp]
  · exact ScoreMultiRanks.domRepeat_rowTemplates
  · exact ScoreMultiRanks.domRepeat_rowTemplates
  · intro l
    cases hsp : l.isSpacer.truthy <;>
      simp [CurrentAthlete.rowTemplates, domIf, JSValue.truthy_lnot, hsp]
  · exact CurrentAthlete.resultTable_eq t

/-! ## C13 -/

/-- C13: for every value of `hidden`, `_computeHidden` and `_computeInactive`
return the two strings `display:none` and `display:block` in opposite order,
so the waiting banner is shown exactly when the attempt bar, the group label
and both tables are hidden; and `_computeInactiveClass` returns `bigTitle`
exactly when `_computeInactive` returns `display:block`, and the empty string
otherwise. -/
theorem C13_hidden_inactive_complementary (hidden : JSValue) :
    ((ScoreMultiRanks._computeHidden hidden = "display:none"
        ∧ ScoreMultiRanks._computeInactive hidden = "display:block"
        ∧ ScoreMultiRanks._computeInactiveClass hidden = "bigTitle"
        ∧ hidden.truthy = true)
      ∨ (ScoreMultiRanks._computeHidden hidden = "display:block"
        ∧ ScoreMultiRanks._computeInactive hidden = "display:none"
        ∧ ScoreMultiRanks._computeInactiveClass hidden = ""
        ∧ hidden.truthy = false))
    ∧ (ScoreMultiRanks._computeHidden hidden = "display:none"
        ↔ ScoreMultiRanks._computeInactive hidden = "display:block")
    ∧ (ScoreMultiRanks._computeHidden hidden = "display:block"
        ↔ ScoreMultiRanks._computeInactive hidden = "display:none")
    ∧ (ScoreMultiRanks._computeInactiveClass hidden = "bigTitle"
        ↔ ScoreMultiRanks._computeInactive hidden = "display:block")
    ∧ (ScoreMultiRanks._computeInactiveClass hidden = ""
        ↔ ScoreMultiRanks._computeInactive hidden ≠ "display:block")
    ∧ (ScoreMultiRanks.bannerStyle hidden = "display:block"
        ↔ (ScoreMultiRanks.attemptBarStyle hidden = "display:none"
            ∧ ScoreMultiRanks.groupStyle hidden = "display:none"
            ∧ ScoreMultiRanks.resultsStyle hidden = "display:none"
            ∧ ScoreMultiRanks.leadersStyle hidden = "display:none")) := by
  cases hsp : hidden.truthy <;>
    simp [ScoreMultiRanks._computeHidden, ScoreMultiRanks._computeInactive,
      ScoreMultiRanks._computeInactiveClass, ScoreMultiRanks.bannerStyle,
      ScoreMultiRanks.attemptBarStyle, ScoreMultiRanks.groupStyle,
      ScoreMultiRanks.resultsStyle, ScoreMultiRanks.leadersStyle, hsp]
